import Mathlib

set_option maxRecDepth 16384

/-!
Shallow embedding of the PPtology converter (src/Script/convert.py and
src/Script/export_excel.py).

Python machine floats are modelled by `PyFloat`: finite values are carried as
exact rationals (IEEE-754 rounding of finite values is not modelled), and the
overflow of `float(str)` to an infinity is modelled at magnitude `2^1024`.
Python exceptions are modelled by `Except PyError`.
-/

/-- Result type of Python `float(...)`: a finite value (exact rational model),
one of the two infinities, or NaN. -/
inductive PyFloat where
  | finite (q : ℚ)
  | inf
  | negInf
  | nan
deriving DecidableEq

/-- A JSON-representable scalar produced by the converter: Python `int`,
`float` or `str`. -/
inductive PyVal where
  | int (n : ℤ)
  | float (f : PyFloat)
  | str (s : String)
deriving DecidableEq

/-- Python `float.is_integer`: true for finite values with no fractional
part, false on infinities and NaN. -/
def PyFloat.is_integer : PyFloat → Bool
  | .finite q => q.den = 1
  | _ => false

/-- Python `int(x)` on a float: truncation toward zero. In the converter it is
only reached under an `is_integer` guard, so the non-finite branches (where
CPython would raise) are given a dummy value. -/
def PyFloat.toInt : PyFloat → ℤ
  | .finite q => q.num.tdiv q.den
  | _ => 0

/-- ASCII whitespace stripped by Python numeric constructors. -/
def isPyWs (c : Char) : Bool :=
  c = ' ' || c = '\t' || c = '\n' || c = '\x0d' || c = '\x0b' || c = '\x0c'

/-- Strip leading and trailing whitespace, as `float(str)` / `int(str)` do. -/
def stripWs (l : List Char) : List Char :=
  ((l.dropWhile isPyWs).reverse.dropWhile isPyWs).reverse

/-- Consume one optional leading sign; returns (isNegative, rest). -/
def parseSign : List Char → Bool × List Char
  | '+' :: rest => (false, rest)
  | '-' :: rest => (true, rest)
  | l => (false, l)

/-- Core of a digit run that may contain single underscores strictly between
digits (Python 3.6+ numeric syntax); accumulates the value and the count of
decimal digits seen. -/
def digitRunCore : List Char → Nat → Nat → Option (Nat × Nat)
  | [], acc, cnt => some (acc, cnt)
  | c :: rest, acc, cnt =>
    if c.isDigit then digitRunCore rest (acc * 10 + (c.toNat - 48)) (cnt + 1)
    else if c = '_' then
      match rest with
      | d :: rest' =>
        if d.isDigit then digitRunCore rest' (acc * 10 + (d.toNat - 48)) (cnt + 1)
        else none
      | [] => none
    else none

/-- A nonempty base-10 digit run (underscores allowed between digits);
yields (value, number of digits). -/
def digitRun? (l : List Char) : Option (Nat × Nat) :=
  match l with
  | [] => none
  | c :: _ => if c.isDigit then digitRunCore l 0 0 else none

/-- Split a character list at the first character satisfying p; `none` when no
character satisfies p. -/
def splitAtFirst (p : Char → Bool) : List Char → Option (List Char × List Char)
  | [] => none
  | c :: rest =>
    if p c then some ([], rest)
    else (splitAtFirst p rest).map (fun pr => (c :: pr.1, pr.2))

/-- Numeric value of a decimal mantissa and exponent:
(intPart + fracVal / 10^fracDigits) * 10^exp, built with core rational
operations so that concrete instances reduce. -/
def decimalValue (intPart fracVal fracDigits : Nat) (exp : ℤ) : ℚ :=
  let num : ℤ := Int.ofNat (intPart * Nat.pow 10 fracDigits + fracVal)
  if 0 ≤ exp then
    mkRat (num * Int.ofNat (Nat.pow 10 exp.toNat)) (Nat.pow 10 fracDigits)
  else
    mkRat num (Nat.pow 10 fracDigits * Nat.pow 10 (-exp).toNat)

/-- Grammar of the decimal part accepted by CPython `float(str)` after sign
stripping: `D [. D'] [e|E [sign] D]`, `. D' [exp]`, `D . [exp]`, where runs are
nonempty digit runs with optional underscores between digits. -/
def parseDecimal (l : List Char) : Option ℚ :=
  let (mant, expDigits?) :=
    match splitAtFirst (fun c => c = 'e' || c = 'E') l with
    | none => (l, none)
    | some (m, e) => (m, some e)
  let exp? : Option ℤ :=
    match expDigits? with
    | none => some 0
    | some ec =>
      let (eneg, eds) := parseSign ec
      match digitRun? eds with
      | none => none
      | some (n, _) => some (if eneg then -(n : ℤ) else (n : ℤ))
  match exp? with
  | none => none
  | some exp =>
    match splitAtFirst (fun c => c = '.') mant with
    | none =>
      match digitRun? mant with
      | none => none
      | some (n, _) => some (decimalValue n 0 0 exp)
    | some (ip, fp) =>
      match ip, fp with
      | [], [] => none
      | [], _ =>
        match digitRun? fp with
        | none => none
        | some (fv, fl) => some (decimalValue 0 fv fl exp)
      | _, [] =>
        match digitRun? ip with
        | none => none
        | some (n, _) => some (decimalValue n 0 0 exp)
      | _, _ =>
        match digitRun? ip, digitRun? fp with
        | some (n, _), some (fv, fl) => some (decimalValue n fv fl exp)
        | _, _ => none

/-- Magnitude at which `float(str)` overflows to an infinity (IEEE-754 double
range). -/
def overflowBound : ℚ := mkRat (Int.ofNat (Nat.pow 2 1024)) 1

/-- CPython `float(str)` on a whitespace-stripped character list: optional
sign, then `inf`/`infinity`/`nan` case-insensitively, or a decimal literal
(with overflow to an infinity). -/
def pyFloatCore (l : List Char) : Option PyFloat :=
  let (neg, rest) := parseSign l
  let low := rest.map Char.toLower
  if low = ['i', 'n', 'f'] || low = ['i', 'n', 'f', 'i', 'n', 'i', 't', 'y'] then
    some (if neg then .negInf else .inf)
  else if low = ['n', 'a', 'n'] then
    some .nan
  else
    match parseDecimal rest with
    | none => none
    | some q0 =>
      let q := if neg then -q0 else q0
      if overflowBound ≤ q then some .inf
      else if q ≤ -overflowBound then some .negInf
      else some (.finite q)

/-- Python `float(s)`; `none` models `ValueError`. -/
def pyFloatOfString? (s : String) : Option PyFloat :=
  pyFloatCore (stripWs s.data)

/-- Python `int(s)` (base 10); `none` models `ValueError`. -/
def pyIntOfString? (s : String) : Option ℤ :=
  let (neg, rest) := parseSign (stripWs s.data)
  match digitRun? rest with
  | none => none
  | some (n, _) => some (if neg then -(n : ℤ) else (n : ℤ))

/-- Source convert.py `_parse_number`: try to parse a string as a number,
collapsing integral floats to int, otherwise return the original string. -/
def _parse_number (s : String) : PyVal :=
  match pyFloatOfString? s with
  | some n => if n.is_integer then .int n.toInt else .float n
  | none => .str s

example : _parse_number "0.0" = .int 0 := by rfl
example : _parse_number "11.21" = .float (.finite (mkRat 1121 100)) := by rfl
example : _parse_number "" = .str "" := by rfl
example : _parse_number "N/A" = .str "N/A" := by rfl
example : _parse_number "inf" = .float .inf := by rfl
example : _parse_number "-1.5e1" = .int (-15) := by rfl
example : pyIntOfString? "101" = some 101 := by rfl
example : pyIntOfString? " +1_0 " = some 10 := by rfl
example : pyIntOfString? "1.5" = none := by rfl

/-- Python exceptions raised by the two scripts. -/
inductive PyError where
  | keyError (k : String)
  | valueError
  | runtimeError (msg : String)
  | attributeError (msg : String)
deriving DecidableEq

/-- Classification used by the specification's error taxonomy: FormatError is
a missing required attribute (KeyError) or a failed strict parse (ValueError). -/
def isFormatError : PyError → Bool
  | .keyError _ => true
  | .valueError => true
  | _ => false

/-- Classification used by the specification's error taxonomy: StructureError
is a missing required top-level section (RuntimeError). -/
def isStructureError : PyError → Bool
  | .runtimeError _ => true
  | _ => false

/-- An ElementTree XML element: tag, attribute map, child elements. -/
inductive Element where
  | mk : String → List (String × String) → List Element → Element

def Element.tag : Element → String
  | .mk t _ _ => t

def Element.attrib : Element → List (String × String)
  | .mk _ a _ => a

def Element.children : Element → List Element
  | .mk _ _ c => c

/-- Python dict lookup `d.get(k)` on an attribute map. -/
def getAttr? : List (String × String) → String → Option String
  | [], _ => none
  | (k', v) :: rest, k => if k' = k then some v else getAttr? rest k

/-- Python dict indexing `d[k]`: KeyError when the key is absent. -/
def attrOrKeyError (a : List (String × String)) (k : String) : Except PyError String :=
  match getAttr? a k with
  | some v => .ok v
  | none => .error (.keyError k)

/-- Strict Python `int(s)`: ValueError when the parse fails. -/
def intOrValueError (s : String) : Except PyError ℤ :=
  match pyIntOfString? s with
  | some n => .ok n
  | none => .error .valueError

/-- Strict Python `float(s)`: ValueError when the parse fails. -/
def floatOrValueError (s : String) : Except PyError PyFloat :=
  match pyFloatOfString? s with
  | some f => .ok f
  | none => .error .valueError

/-- ElementTree `el.find(tag)`: first direct child with the given tag. -/
def findChild (el : Element) (t : String) : Option Element :=
  el.children.find? (fun c => c.tag == t)

/-- ElementTree `el.findall(tag)`: all direct children with the given tag, in
document order. -/
def findallChildren (el : Element) (t : String) : List Element :=
  el.children.filter (fun c => c.tag == t)

/-- The node record produced by `parse_node` (the list-shaped representation:
the identifier is kept in the record). -/
structure NodeRec where
  id : String
  type : ℤ
  data : List PyVal
deriving DecidableEq

/-- A node value as stored in the identifier-keyed graph mapping (the
identifier is omitted). -/
structure NodeVal where
  type : ℤ
  data : List PyVal
deriving DecidableEq

/-- One endpoint of an edge: node identifier and port. -/
structure EdgeEnd where
  node : String
  port : ℤ
deriving DecidableEq

/-- The edge record produced by `parse_edge`. -/
structure EdgeRec where
  «from» : EdgeEnd
  «to» : EdgeEnd
  pressure : PyFloat
  enthalpy : PyFloat
  flow : PyFloat
  temperature : PyFloat
deriving DecidableEq

/-- Body of the value-collecting loop of `parse_node`: append the coerced
value when the `value` attribute is present, otherwise skip the entry. -/
def dataStep (acc : List PyVal) (d : Element) : List PyVal :=
  match getAttr? d.attrib "value" with
  | some v => acc ++ [_parse_number v]
  | none => acc

/-- Source convert.py `parse_node`: requires attributes `ID` and `type`
(`type` must parse as an integer); collects the coerced `value` attributes of
the `data` children of the `nodedata` container, skipping entries without a
`value` attribute. -/
def parse_node (node_el : Element) : Except PyError NodeRec := do
  let node_id ← attrOrKeyError node_el.attrib "ID"
  let tstr ← attrOrKeyError node_el.attrib "type"
  let node_type ← intOrValueError tstr
  let values :=
    match findChild node_el "nodedata" with
    | none => []
    | some dc => (findallChildren dc "data").foldl dataStep []
  pure { id := node_id, type := node_type, data := values }

/-- First-comma split of `value.split(",", 1)` followed by the two-variable
unpacking: `none` when the string has no comma (Python raises ValueError on
the unpacking). -/
def splitFirstComma (s : String) : Option (String × String) :=
  (splitAtFirst (fun c => c = ',') s.data).map
    (fun pr => (String.mk pr.1, String.mk pr.2))

/-- Source convert.py `_parse_edge_end`: split on the first comma; left part
is the node identifier (not validated), right part must parse as an integer
port. -/
def _parse_edge_end (value : String) : Except PyError EdgeEnd := do
  match splitFirstComma value with
  | none => .error .valueError
  | some (node_id, port_str) => do
    let p ← intOrValueError port_str
    pure { node := node_id, port := p }

/-- Source convert.py `parse_edge`: requires attributes `start`, `end`
(endpoint-formatted) and the four physical attributes, each parsed strictly
as a float, in the evaluation order of the Python dict literal. -/
def parse_edge (edge_el : Element) : Except PyError EdgeRec := do
  let a := edge_el.attrib
  let sv ← attrOrKeyError a "start"
  let fr ← _parse_edge_end sv
  let ev ← attrOrKeyError a "end"
  let toEnd ← _parse_edge_end ev
  let pv ← attrOrKeyError a "pressure"
  let p ← floatOrValueError pv
  let hv ← attrOrKeyError a "enthalpy"
  let h ← floatOrValueError hv
  let fv ← attrOrKeyError a "flow"
  let f ← floatOrValueError fv
  let tv ← attrOrKeyError a "temperature"
  let t ← floatOrValueError tv
  pure { «from» := fr, «to» := toEnd, pressure := p, enthalpy := h,
         flow := f, temperature := t }

/-- Python dict insertion `nodes[k] = v`: update in place when the key is
already present (keeping its position), otherwise append. -/
def insertNode : List (String × NodeVal) → String → NodeVal → List (String × NodeVal)
  | [], k, v => [(k, v)]
  | (k', v') :: rest, k, v =>
    if k' = k then (k, v) :: rest else (k', v') :: insertNode rest k v

/-- Python dict lookup on the assembled node mapping. -/
def lookupNode : List (String × NodeVal) → String → Option NodeVal
  | [], _ => none
  | (k', v) :: rest, k => if k' = k then some v else lookupNode rest k

/-- The node-building loop of `xml_to_json_graph`: parse each node element in
document order and insert it into the identifier-keyed mapping. -/
def buildNodes : List Element → List (String × NodeVal) → Except PyError (List (String × NodeVal))
  | [], m => .ok m
  | el :: rest, m => do
    let n ← parse_node el
    buildNodes rest (insertNode m n.id { type := n.type, data := n.data })

/-- Elementwise effectful map, modelling a Python list comprehension over a
parser that can raise. -/
def mapME (f : α → Except PyError β) : List α → Except PyError (List β)
  | [] => .ok []
  | a :: l => do
    let b ← f a
    let bs ← mapME f l
    pure (b :: bs)

/-- The assembled graph: nodes as an identifier-keyed mapping (insertion
ordered), edges as a plain list. -/
structure Graph where
  nodes : List (String × NodeVal)
  edges : List EdgeRec
deriving DecidableEq

/-- Source convert.py `xml_to_json_graph` (from the parsed XML root): find the
`nodes` and `edges` sections, fail with RuntimeError when either is missing,
then build the node mapping and the edge list. -/
def xml_to_json_graph (root : Element) : Except PyError Graph :=
  match findChild root "nodes", findChild root "edges" with
  | some nodes_el, some edges_el => do
    let nodes ← buildNodes (findallChildren nodes_el "node") []
    let edges ← mapME parse_edge (findallChildren edges_el "edge")
    pure { nodes := nodes, edges := edges }
  | _, _ => .error (.runtimeError "XML does not contain <nodes> and <edges> sections")

/-- One row of the node table: columns `id`, `type`, and positionally
`data_1` … `data_M` (`dataCols.get i` is column `data_(i+1)`; `none` is a
null cell). -/
structure NodeRow where
  id : String
  type : ℤ
  dataCols : List (Option PyVal)
deriving DecidableEq

/-- Source export_excel.py `build_nodes_dataframe` on the list-shaped node
representation (each record carries its identifier): the graph-global maximum
data length fixes the column count, shorter nodes get trailing nulls. -/
def build_nodes_dataframe (nodes : List NodeRec) : List NodeRow :=
  let max_data_len := (nodes.map (fun n => n.data.length)).foldl max 0
  nodes.map (fun n =>
    { id := n.id, type := n.type,
      dataCols := (List.range max_data_len).map (fun i => n.data[i]?) })

/-- Attribute access `n.get(...)` where `n` is a Python `str`: strings have no
`get` method, so the access raises AttributeError. -/
def strGetAttr (α : Type) (_n _k : String) : Except PyError α :=
  .error (.attributeError "str object has no attribute get")

/-- Source export_excel.py `build_nodes_dataframe` as it executes when handed
the identifier-keyed node mapping: iterating the mapping yields its key
strings, and the very first `n.get("data", [])` inside the max-computation
raises AttributeError; the row loop (which would fail the same way at
`n.get("id")`) is never reached on a nonempty mapping. -/
def build_nodes_dataframe_on_keys (keys : List String) : Except PyError (List NodeRow) := do
  let lens ← mapME (fun n => do
    let d ← strGetAttr (List PyVal) n "data"
    pure d.length) keys
  let _max_data_len := lens.foldl max 0
  let rows ← mapME (fun n => strGetAttr NodeRow n "id") keys
  pure rows

/-- Reattaching identifiers: flattening the mapping-shaped nodes back to the
list-shaped representation, as the specification requires before the tabular
export. -/
def flattenNodes (m : List (String × NodeVal)) : List NodeRec :=
  m.map (fun p => { id := p.1, type := p.2.type, data := p.2.data })

/-- Source export_excel.py `xml_to_excel`, node-table side, as written:
`graph["nodes"]` is the identifier-keyed mapping produced by
`xml_to_json_graph`, and it is passed to `build_nodes_dataframe` without
flattening, so the table builder iterates the key strings. -/
def xml_to_excel_nodes (root : Element) : Except PyError (List NodeRow) := do
  let graph ← xml_to_json_graph root
  build_nodes_dataframe_on_keys (graph.nodes.map Prod.fst)

/-- A data entry element `<data value=.../>`. -/
def dataEl (v : String) : Element := .mk "data" [("value", v)] []

/-- A data entry element with no `value` attribute. -/
def dataElNoValue : Element := .mk "data" [] []

/-- A node element with a `nodedata` container. -/
def nodeEl (id ty : String) (ds : List Element) : Element :=
  .mk "node" [("ID", id), ("type", ty)] [.mk "nodedata" [] ds]

/-- An edge element with the six required attributes. -/
def edgeEl (s e p h f t : String) : Element :=
  .mk "edge" [("start", s), ("end", e), ("pressure", p), ("enthalpy", h),
              ("flow", f), ("temperature", t)] []

/-- A root element with both sections. -/
def rootEl (ns es : List Element) : Element :=
  .mk "root" [] [.mk "nodes" [] ns, .mk "edges" [] es]

/-- The worked example of the specification: one node (ID 51, type 101, one
data value "0.0") and one edge. -/
def sampleRoot : Element :=
  rootEl [nodeEl "51" "101" [dataEl "0.0"]]
    [edgeEl "453,2" "634,1" "1.0" "2.0" "3.0" "4.0"]

example : xml_to_json_graph sampleRoot = .ok
    { nodes := [("51", { type := 101, data := [.int 0] })],
      edges := [{ «from» := { node := "453", port := 2 },
                  «to» := { node := "634", port := 1 },
                  pressure := .finite 1, enthalpy := .finite 2,
                  flow := .finite 3, temperature := .finite 4 }] } := by rfl

example : xml_to_excel_nodes sampleRoot =
    .error (.attributeError "str object has no attribute get") := by rfl

example : parse_node (.mk "node" [("type", "101")] []) =
    .error (.keyError "ID") := by rfl

example : xml_to_json_graph (.mk "root" [] [.mk "nodes" [] []]) =
    .error (.runtimeError "XML does not contain <nodes> and <edges> sections") := by rfl

theorem except_bind_ok {α β : Type} (x : Except PyError α) (f : α → Except PyError β) (b : β) :
    (x >>= f) = .ok b ↔ ∃ a, x = .ok a ∧ f a = .ok b := by
  cases x <;> simp [Bind.bind, Except.bind]

theorem except_bind_error {α β : Type} (x : Except PyError α) (f : α → Except PyError β) (e : PyError) :
    (x >>= f) = .error e ↔ x = .error e ∨ ∃ a, x = .ok a ∧ f a = .error e := by
  cases x <;> simp [Bind.bind, Except.bind]

theorem attrOrKeyError_ok_iff (a : List (String × String)) (k v : String) :
    attrOrKeyError a k = .ok v ↔ getAttr? a k = some v := by
  unfold attrOrKeyError
  cases h : getAttr? a k <;> simp

theorem attrOrKeyError_error_iff (a : List (String × String)) (k : String) (e : PyError) :
    attrOrKeyError a k = .error e ↔ getAttr? a k = none ∧ e = .keyError k := by
  unfold attrOrKeyError
  cases h : getAttr? a k <;> simp <;> exact eq_comm

theorem intOrValueError_ok_iff (s : String) (n : ℤ) :
    intOrValueError s = .ok n ↔ pyIntOfString? s = some n := by
  unfold intOrValueError
  cases h : pyIntOfString? s <;> simp

theorem intOrValueError_error_iff (s : String) (e : PyError) :
    intOrValueError s = .error e ↔ pyIntOfString? s = none ∧ e = .valueError := by
  unfold intOrValueError
  cases h : pyIntOfString? s <;> simp <;> exact eq_comm

theorem floatOrValueError_ok_iff (s : String) (f : PyFloat) :
    floatOrValueError s = .ok f ↔ pyFloatOfString? s = some f := by
  unfold floatOrValueError
  cases h : pyFloatOfString? s <;> simp

theorem floatOrValueError_error_iff (s : String) (e : PyError) :
    floatOrValueError s = .error e ↔ pyFloatOfString? s = none ∧ e = .valueError := by
  unfold floatOrValueError
  cases h : pyFloatOfString? s <;> simp <;> exact eq_comm

theorem pyfloat_integer_value (q : ℚ) (h : (PyFloat.finite q).is_integer = true) :
    ((PyFloat.finite q).toInt : ℚ) = q := by
  have hd : q.den = 1 := by simpa [PyFloat.is_integer] using h
  simp only [PyFloat.toInt, hd, Int.tdiv_one, Nat.cast_one]
  exact (Rat.den_eq_one_iff q).mp hd

/-- C2: numeric coercion returns the integer equal to float(s) when the parse
succeeds with no fractional part, the float when it succeeds with a fractional
part, and the original string (the empty string included) when the parse
fails; in particular "0.0" collapses to the integer 0. -/
theorem parse_number_contract :
    (∀ s f, pyFloatOfString? s = some f → f.is_integer = true →
       _parse_number s = .int f.toInt ∧ ∀ q, f = .finite q → (f.toInt : ℚ) = q) ∧
    (∀ s f, pyFloatOfString? s = some f → f.is_integer = false →
       _parse_number s = .float f) ∧
    (∀ s, pyFloatOfString? s = none → _parse_number s = .str s) ∧
    _parse_number "0.0" = .int 0 ∧
    _parse_number "" = .str "" := by
  refine ⟨?_, ?_, ?_, by rfl, by rfl⟩
  · intro s f hs hi
    refine ⟨by simp [_parse_number, hs, hi], ?_⟩
    intro q hq
    subst hq
    exact pyfloat_integer_value q hi
  · intro s f hs hi
    simp [_parse_number, hs, hi]
  · intro s hs
    simp [_parse_number, hs]

/-- Witness: parse_number_contract applied at "2.0", "1.5" and "abc". -/
theorem parse_number_contract_witness :
    _parse_number "2.0" = .int ((PyFloat.finite 2).toInt) ∧
    _parse_number "1.5" = .float (.finite (mkRat 3 2)) ∧
    _parse_number "abc" = .str "abc" :=
  ⟨(parse_number_contract.1 "2.0" (.finite 2) (by rfl) (by rfl)).1,
   parse_number_contract.2.1 "1.5" (.finite (mkRat 3 2)) (by rfl) (by rfl),
   parse_number_contract.2.2.1 "abc" (by rfl)⟩

/-- C10: strings accepted by float parsing that denote non-finite values,
such as "inf", "Infinity", "nan" and the overflow form "1e400", coerce to the
non-integral float (an infinity or NaN), not to the original string. -/
theorem parse_number_nonfinite :
    _parse_number "inf" = .float .inf ∧
    _parse_number "Infinity" = .float .inf ∧
    _parse_number "nan" = .float .nan ∧
    _parse_number "1e400" = .float .inf ∧
    PyFloat.inf.is_integer = false ∧
    PyFloat.nan.is_integer = false :=
  ⟨by rfl, by rfl, by rfl, by rfl, rfl, rfl⟩

/-- C3: a document whose root lacks the nodes section or the edges section
fails with the StructureError (a RuntimeError) before any node or edge
parsing, so no graph is produced and nothing can be written. -/
theorem missing_sections_abort (root : Element)
    (h : findChild root "nodes" = none ∨ findChild root "edges" = none) :
    xml_to_json_graph root =
      .error (.runtimeError "XML does not contain <nodes> and <edges> sections") ∧
    isStructureError
      (.runtimeError "XML does not contain <nodes> and <edges> sections") = true := by
  refine ⟨?_, rfl⟩
  rcases h with h | h
  · simp [xml_to_json_graph, h]
  · cases hn : findChild root "nodes" <;> simp [xml_to_json_graph, hn, h]

/-- Witness: a root whose nodes section holds a malformed node but which lacks
the edges section still fails with the StructureError, showing the
short-circuit before node parsing. -/
theorem missing_sections_abort_witness :
    xml_to_json_graph (.mk "root" [] [.mk "nodes" [] [.mk "node" [] []]]) =
      .error (.runtimeError "XML does not contain <nodes> and <edges> sections") :=
  (missing_sections_abort (.mk "root" [] [.mk "nodes" [] [.mk "node" [] []]])
    (Or.inr (by rfl))).1

theorem splitAtFirst_of_none (p : Char → Bool) (l : List Char)
    (h : ∀ c ∈ l, p c = false) : splitAtFirst p l = none := by
  induction l with
  | nil => rfl
  | cons c rest ih =>
    have hc := h c (List.mem_cons_self c rest)
    simp [splitAtFirst, hc, ih (fun x hx => h x (List.mem_cons_of_mem _ hx))]

theorem splitAtFirst_append (p : Char → Bool) (l r : List Char) (c : Char)
    (h : ∀ x ∈ l, p x = false) (hc : p c = true) :
    splitAtFirst p (l ++ c :: r) = some (l, r) := by
  induction l with
  | nil => simp [splitAtFirst, hc]
  | cons a rest ih =>
    have ha := h a (List.mem_cons_self a rest)
    simp [splitAtFirst, ha, ih (fun x hx => h x (List.mem_cons_of_mem _ hx))]

theorem string_mk_data (s : String) : String.mk s.data = s := rfl

theorem splitFirstComma_append (l r : String) (h : ',' ∉ l.data) :
    splitFirstComma (l ++ "," ++ r) = some (l, r) := by
  unfold splitFirstComma
  have hdata : (l ++ "," ++ r).data = l.data ++ ',' :: r.data := by
    simp [String.data_append]
  rw [hdata, splitAtFirst_append _ _ _ _ ?_ (by simp)]
  · simp [string_mk_data]
  · intro x hx
    simp only [decide_eq_false_iff_not]
    exact fun he => h (he ▸ hx)

theorem splitFirstComma_none (v : String) (h : ',' ∉ v.data) :
    splitFirstComma v = none := by
  unfold splitFirstComma
  rw [splitAtFirst_of_none]
  · rfl
  · intro x hx
    simp only [decide_eq_false_iff_not]
    exact fun he => h (he ▸ hx)

/-- C5: endpoint parsing splits on the first comma only, takes the left part
as the node identifier without validating it, requires the right part to parse
as an integer port (else ValueError, a FormatError), and fails with ValueError
when the string has no comma; "453,2" parses to node "453", port 2. -/
theorem parse_edge_end_contract :
    (∀ l r p, ',' ∉ l.data → pyIntOfString? r = some p →
       _parse_edge_end (l ++ "," ++ r) = .ok { node := l, port := p }) ∧
    (∀ l r, ',' ∉ l.data → pyIntOfString? r = none →
       _parse_edge_end (l ++ "," ++ r) = .error .valueError ∧
       isFormatError .valueError = true) ∧
    (∀ v, ',' ∉ v.data → _parse_edge_end v = .error .valueError ∧
       isFormatError .valueError = true) ∧
    _parse_edge_end "453,2" = .ok { node := "453", port := 2 } := by
  refine ⟨?_, ?_, ?_, by rfl⟩
  · intro l r p hl hr
    simp [_parse_edge_end, splitFirstComma_append l r hl, intOrValueError, hr]
  · intro l r hl hr
    exact ⟨by simp [_parse_edge_end, splitFirstComma_append l r hl,
      intOrValueError, hr], rfl⟩
  · intro v hv
    exact ⟨by simp [_parse_edge_end, splitFirstComma_none v hv], rfl⟩

/-- Witness: parse_edge_end_contract applied at "a,7", "a,x" and "nocomma". -/
theorem parse_edge_end_contract_witness :
    _parse_edge_end ("a" ++ "," ++ "7") = .ok { node := "a", port := 7 } ∧
    _parse_edge_end ("a" ++ "," ++ "x") = .error .valueError ∧
    _parse_edge_end "nocomma" = .error .valueError :=
  ⟨parse_edge_end_contract.1 "a" "7" 7 (by decide) (by rfl),
   (parse_edge_end_contract.2.1 "a" "x" (by decide) (by rfl)).1,
   (parse_edge_end_contract.2.2.1 "nocomma" (by decide)).1⟩

theorem foldl_dataStep (l : List Element) (acc : List PyVal) :
    l.foldl dataStep acc =
      acc ++ (l.filterMap (fun d => getAttr? d.attrib "value")).map _parse_number := by
  induction l generalizing acc with
  | nil => simp
  | cons d rest ih =>
    cases hg : getAttr? d.attrib "value" <;>
      simp [dataStep, hg, ih, List.filterMap_cons]

/-- C7: on a node element whose ID is present and whose type parses as an
integer, parsing succeeds with the identifier string, the integer type, and
the coerced values of the value-bearing data entries in document order; a
data entry without a value attribute is skipped without error, and a node
with no nodedata container yields an empty data sequence. -/
theorem parse_node_contract :
    ∀ el id tstr t,
      getAttr? el.attrib "ID" = some id →
      getAttr? el.attrib "type" = some tstr →
      pyIntOfString? tstr = some t →
      parse_node el = .ok
        { id := id, type := t,
          data :=
            match findChild el "nodedata" with
            | none => []
            | some dc =>
              ((findallChildren dc "data").filterMap
                (fun d => getAttr? d.attrib "value")).map _parse_number } := by
  intro el id tstr t hid hty ht
  unfold parse_node
  cases hdc : findChild el "nodedata" <;>
    simp [Bind.bind, Except.bind, attrOrKeyError, hid, hty, intOrValueError, ht,
      hdc, pure, Except.pure, foldl_dataStep]

/-- Witness: parse_node_contract at a node with data values "0.0", a
value-less entry, and "7.5", and at a node with no nodedata container. -/
theorem parse_node_contract_witness :
    parse_node (nodeEl "51" "101" [dataEl "0.0", dataElNoValue, dataEl "7.5"]) =
      .ok { id := "51", type := 101,
            data := [.int 0, .float (.finite (mkRat 15 2))] } ∧
    parse_node (.mk "node" [("ID", "9"), ("type", "3")] []) =
      .ok { id := "9", type := 3, data := [] } :=
  ⟨parse_node_contract (nodeEl "51" "101" [dataEl "0.0", dataElNoValue, dataEl "7.5"])
      "51" "101" 101 (by rfl) (by rfl) (by rfl),
   parse_node_contract (.mk "node" [("ID", "9"), ("type", "3")] [])
      "9" "3" 3 (by rfl) (by rfl) (by rfl)⟩

theorem attr_error_fmt (a : List (String × String)) (k : String) (e : PyError)
    (h : attrOrKeyError a k = .error e) : isFormatError e = true := by
  rw [((attrOrKeyError_error_iff a k e).mp h).2]
  rfl

theorem int_error_fmt (s : String) (e : PyError)
    (h : intOrValueError s = .error e) : isFormatError e = true := by
  rw [((intOrValueError_error_iff s e).mp h).2]
  rfl

theorem float_error_fmt (s : String) (e : PyError)
    (h : floatOrValueError s = .error e) : isFormatError e = true := by
  rw [((floatOrValueError_error_iff s e).mp h).2]
  rfl

theorem parse_edge_end_error (v : String) (e : PyError)
    (h : _parse_edge_end v = .error e) : e = .valueError := by
  unfold _parse_edge_end at h
  cases hs : splitFirstComma v with
  | none =>
    rw [hs] at h
    exact (Except.error.inj h).symm
  | some pr =>
    obtain ⟨l, r⟩ := pr
    rw [hs, except_bind_error] at h
    rcases h with h | ⟨p, _, h⟩
    · exact ((intOrValueError_error_iff r e).mp h).2
    · simp [pure, Except.pure] at h

theorem edge_end_error_fmt (v : String) (e : PyError)
    (h : _parse_edge_end v = .error e) : isFormatError e = true := by
  rw [parse_edge_end_error v e h]
  rfl

theorem parse_edge_error_format (el : Element) (err : PyError)
    (h : parse_edge el = .error err) : isFormatError err = true := by
  unfold parse_edge at h
  rw [except_bind_error] at h
  rcases h with h | ⟨sv, _, h⟩
  · exact attr_error_fmt _ _ _ h
  rw [except_bind_error] at h
  rcases h with h | ⟨fr, _, h⟩
  · exact edge_end_error_fmt _ _ h
  rw [except_bind_error] at h
  rcases h with h | ⟨ev, _, h⟩
  · exact attr_error_fmt _ _ _ h
  rw [except_bind_error] at h
  rcases h with h | ⟨toE, _, h⟩
  · exact edge_end_error_fmt _ _ h
  rw [except_bind_error] at h
  rcases h with h | ⟨pv, _, h⟩
  · exact attr_error_fmt _ _ _ h
  rw [except_bind_error] at h
  rcases h with h | ⟨p, _, h⟩
  · exact float_error_fmt _ _ h
  rw [except_bind_error] at h
  rcases h with h | ⟨hv, _, h⟩
  · exact attr_error_fmt _ _ _ h
  rw [except_bind_error] at h
  rcases h with h | ⟨hq, _, h⟩
  · exact float_error_fmt _ _ h
  rw [except_bind_error] at h
  rcases h with h | ⟨fv, _, h⟩
  · exact attr_error_fmt _ _ _ h
  rw [except_bind_error] at h
  rcases h with h | ⟨fq, _, h⟩
  · exact float_error_fmt _ _ h
  rw [except_bind_error] at h
  rcases h with h | ⟨tv, _, h⟩
  · exact attr_error_fmt _ _ _ h
  rw [except_bind_error] at h
  rcases h with h | ⟨tq, _, h⟩
  · exact float_error_fmt _ _ h
  simp [pure, Except.pure] at h

theorem parse_edge_ok_elim (el : Element) (r : EdgeRec)
    (h : parse_edge el = .ok r) :
    ∃ s e p hh f t,
      getAttr? el.attrib "start" = some s ∧
      getAttr? el.attrib "end" = some e ∧
      getAttr? el.attrib "pressure" = some p ∧
      getAttr? el.attrib "enthalpy" = some hh ∧
      getAttr? el.attrib "flow" = some f ∧
      getAttr? el.attrib "temperature" = some t ∧
      _parse_edge_end s = .ok r.«from» ∧
      _parse_edge_end e = .ok r.«to» ∧
      pyFloatOfString? p = some r.pressure ∧
      pyFloatOfString? hh = some r.enthalpy ∧
      pyFloatOfString? f = some r.flow ∧
      pyFloatOfString? t = some r.temperature := by
  unfold parse_edge at h
  simp only [except_bind_ok] at h
  obtain ⟨sv, hsv, fr, hfr, ev, hev, toE, htoE, pv, hpv, p, hp, hv, hhv,
    hq, hhq, fv, hfv, fq, hfq, tv, htv, tq, htq, hpure⟩ := h
  have hrec : EdgeRec.mk fr toE p hq fq tq = r := by
    simpa [pure, Except.pure] using hpure
  subst hrec
  exact ⟨sv, ev, pv, hv, fv, tv,
    (attrOrKeyError_ok_iff _ _ _).mp hsv,
    (attrOrKeyError_ok_iff _ _ _).mp hev,
    (attrOrKeyError_ok_iff _ _ _).mp hpv,
    (attrOrKeyError_ok_iff _ _ _).mp hhv,
    (attrOrKeyError_ok_iff _ _ _).mp hfv,
    (attrOrKeyError_ok_iff _ _ _).mp htv,
    hfr, htoE,
    (floatOrValueError_ok_iff _ _).mp hp,
    (floatOrValueError_ok_iff _ _).mp hhq,
    (floatOrValueError_ok_iff _ _).mp hfq,
    (floatOrValueError_ok_iff _ _).mp htq⟩

theorem parse_edge_ok_intro (el : Element) (s e p hh f t : String)
    (fr toE : EdgeEnd) (pq hq fq tq : PyFloat)
    (h1 : getAttr? el.attrib "start" = some s)
    (h2 : getAttr? el.attrib "end" = some e)
    (h3 : getAttr? el.attrib "pressure" = some p)
    (h4 : getAttr? el.attrib "enthalpy" = some hh)
    (h5 : getAttr? el.attrib "flow" = some f)
    (h6 : getAttr? el.attrib "temperature" = some t)
    (hfr : _parse_edge_end s = .ok fr)
    (htoE : _parse_edge_end e = .ok toE)
    (hp : pyFloatOfString? p = some pq)
    (hhq : pyFloatOfString? hh = some hq)
    (hfq : pyFloatOfString? f = some fq)
    (htq : pyFloatOfString? t = some tq) :
    parse_edge el = .ok (EdgeRec.mk fr toE pq hq fq tq) := by
  unfold parse_edge
  simp [attrOrKeyError, h1, h2, h3, h4, h5, h6, hfr, htoE,
    floatOrValueError, hp, hhq, hfq, htq, Bind.bind, Except.bind, pure, Except.pure]

theorem parse_node_missing_id (el : Element)
    (h : getAttr? el.attrib "ID" = none) :
    parse_node el = .error (.keyError "ID") := by
  unfold parse_node
  simp [attrOrKeyError, h, Bind.bind, Except.bind]

theorem parse_node_missing_type (el : Element) (v : String)
    (hv : getAttr? el.attrib "ID" = some v)
    (h : getAttr? el.attrib "type" = none) :
    parse_node el = .error (.keyError "type") := by
  unfold parse_node
  simp [attrOrKeyError, hv, h, Bind.bind, Except.bind]

theorem buildNodes_ok_mem (l : List Element) (m m' : List (String × NodeVal))
    (h : buildNodes l m = .ok m') : ∀ el ∈ l, ∃ n, parse_node el = .ok n := by
  induction l generalizing m with
  | nil => intro el hel; cases hel
  | cons a rest ih =>
    intro el hel
    unfold buildNodes at h
    rw [except_bind_ok] at h
    obtain ⟨n, hn, hrest⟩ := h
    cases hel with
    | head => exact ⟨n, hn⟩
    | tail _ hel => exact ih _ hrest el hel

theorem mapME_ok_mem {α β : Type} (f : α → Except PyError β) (l : List α) (bs : List β)
    (h : mapME f l = .ok bs) : ∀ a ∈ l, ∃ b, f a = .ok b := by
  induction l generalizing bs with
  | nil => intro a ha; cases ha
  | cons a0 rest ih =>
    intro a ha
    unfold mapME at h
    rw [except_bind_ok] at h
    obtain ⟨b, hb, h⟩ := h
    rw [except_bind_ok] at h
    obtain ⟨bs', hbs', _⟩ := h
    cases ha with
    | head => exact ⟨b, hb⟩
    | tail _ ha => exact ih bs' hbs' a ha

theorem mapME_forall₂ {α β : Type} (f : α → Except PyError β) (l : List α) (bs : List β)
    (h : mapME f l = .ok bs) : List.Forall₂ (fun a b => f a = .ok b) l bs := by
  induction l generalizing bs with
  | nil =>
    unfold mapME at h
    have : ([] : List β) = bs := by simpa using h
    subst this
    exact List.Forall₂.nil
  | cons a rest ih =>
    unfold mapME at h
    rw [except_bind_ok] at h
    obtain ⟨b, hb, h⟩ := h
    rw [except_bind_ok] at h
    obtain ⟨bs', hbs', hpure⟩ := h
    have : b :: bs' = bs := by simpa [pure, Except.pure] using hpure
    subst this
    exact List.Forall₂.cons hb (ih bs' hbs')

theorem buildNodes_of_mapME (l : List Element) (ns : List NodeRec)
    (m : List (String × NodeVal)) (h : mapME parse_node l = .ok ns) :
    buildNodes l m = .ok (ns.foldl
      (fun m n => insertNode m n.id { type := n.type, data := n.data }) m) := by
  induction l generalizing ns m with
  | nil =>
    unfold mapME at h
    have : ([] : List NodeRec) = ns := by simpa using h
    subst this
    rfl
  | cons a rest ih =>
    unfold mapME at h
    rw [except_bind_ok] at h
    obtain ⟨n, hn, h⟩ := h
    rw [except_bind_ok] at h
    obtain ⟨bs, hbs, hpure⟩ := h
    have : n :: bs = ns := by simpa [pure, Except.pure] using hpure
    subst this
    unfold buildNodes
    rw [hn]
    simpa [Bind.bind, Except.bind] using ih bs _ hbs

theorem xml_to_json_graph_ok_elim (root ne ee : Element) (g : Graph)
    (hne : findChild root "nodes" = some ne)
    (hee : findChild root "edges" = some ee)
    (h : xml_to_json_graph root = .ok g) :
    buildNodes (findallChildren ne "node") [] = .ok g.nodes ∧
    mapME parse_edge (findallChildren ee "edge") = .ok g.edges := by
  unfold xml_to_json_graph at h
  rw [hne, hee] at h
  simp only [except_bind_ok] at h
  obtain ⟨ns, hns, es, hes, hpure⟩ := h
  have : Graph.mk ns es = g := by simpa [pure, Except.pure] using hpure
  subst this
  exact ⟨hns, hes⟩

theorem lookup_insertNode (m : List (String × NodeVal)) (k k' : String) (v : NodeVal) :
    lookupNode (insertNode m k v) k' =
      if k = k' then some v else lookupNode m k' := by
  induction m with
  | nil =>
    by_cases h : k = k' <;> simp [insertNode, lookupNode, h]
  | cons p rest ih =>
    obtain ⟨k₀, v₀⟩ := p
    by_cases h₀ : k₀ = k
    · subst h₀
      by_cases h' : k₀ = k' <;> simp [insertNode, lookupNode, h']
    · by_cases h' : k₀ = k' <;> by_cases h'' : k = k' <;>
        simp_all [insertNode, lookupNode, h₀, h', h'']
  
/-- The last node record in the list carrying the given identifier (document
order), if any. -/
def lastWithId (k : String) : List NodeRec → Option NodeRec
  | [] => none
  | n :: rest =>
    match lastWithId k rest with
    | some m => some m
    | none => if n.id = k then some n else none

theorem lookup_foldNodes (ns : List NodeRec) (m : List (String × NodeVal)) (k : String) :
    lookupNode (ns.foldl
      (fun m n => insertNode m n.id { type := n.type, data := n.data }) m) k =
      match lastWithId k ns with
      | some n => some { type := n.type, data := n.data }
      | none => lookupNode m k := by
  induction ns generalizing m with
  | nil => simp [lastWithId]
  | cons n rest ih =>
    simp only [List.foldl_cons, lastWithId]
    rw [ih]
    cases hrest : lastWithId k rest with
    | some n' => simp
    | none =>
      simp only [lookup_insertNode]
      by_cases h : n.id = k <;> simp [h]

theorem xml_sections_of_ok (root : Element) (g : Graph)
    (h : xml_to_json_graph root = .ok g) :
    ∃ ne ee, findChild root "nodes" = some ne ∧ findChild root "edges" = some ee := by
  unfold xml_to_json_graph at h
  cases hne : findChild root "nodes" with
  | none =>
    cases hee : findChild root "edges" <;> rw [hne, hee] at h <;> simp at h
  | some ne =>
    cases hee : findChild root "edges" with
    | none =>
      rw [hne, hee] at h
      simp at h
    | some ee => exact ⟨ne, ee, rfl, rfl⟩

/-- C4: a node element missing ID fails with KeyError "ID"; one with ID but
no type fails with KeyError "type"; an edge element missing any of its six
required attributes fails with a FormatError; and a successfully produced
graph implies every node and every edge element parsed successfully, so any
such failure aborts the whole conversion with no partial graph. -/
theorem missing_attributes_abort :
    (∀ el, getAttr? el.attrib "ID" = none →
       parse_node el = .error (.keyError "ID") ∧
       isFormatError (.keyError "ID") = true) ∧
    (∀ el v, getAttr? el.attrib "ID" = some v →
       getAttr? el.attrib "type" = none →
       parse_node el = .error (.keyError "type") ∧
       isFormatError (.keyError "type") = true) ∧
    (∀ el k, k ∈ ["start", "end", "pressure", "enthalpy", "flow", "temperature"] →
       getAttr? el.attrib k = none →
       ∃ err, parse_edge el = .error err ∧ isFormatError err = true) ∧
    (∀ root ne g, xml_to_json_graph root = .ok g →
       findChild root "nodes" = some ne →
       ∀ el ∈ findallChildren ne "node", ∃ n, parse_node el = .ok n) ∧
    (∀ root ee g, xml_to_json_graph root = .ok g →
       findChild root "edges" = some ee →
       ∀ el ∈ findallChildren ee "edge", ∃ e, parse_edge el = .ok e) := by
  refine ⟨fun el h => ⟨parse_node_missing_id el h, rfl⟩,
    fun el v hv h => ⟨parse_node_missing_type el v hv h, rfl⟩, ?_, ?_, ?_⟩
  · intro el k hk hnone
    cases herr : parse_edge el with
    | ok r =>
      obtain ⟨s, e, p, hh, f, t, h1, h2, h3, h4, h5, h6, _, _, _, _, _, _⟩ :=
        parse_edge_ok_elim el r herr
      simp only [List.mem_cons, List.not_mem_nil, or_false] at hk
      rcases hk with rfl | rfl | rfl | rfl | rfl | rfl <;> simp_all
    | error err => exact ⟨err, rfl, parse_edge_error_format el err herr⟩
  · intro root ne g hok hne
    obtain ⟨ne0, ee, _, hee⟩ := xml_sections_of_ok root g hok
    obtain ⟨hb, _⟩ := xml_to_json_graph_ok_elim root ne ee g hne hee hok
    exact buildNodes_ok_mem _ _ _ hb
  · intro root ee g hok hee
    obtain ⟨ne, ee0, hne, _⟩ := xml_sections_of_ok root g hok
    obtain ⟨_, hm⟩ := xml_to_json_graph_ok_elim root ne ee g hne hee hok
    exact mapME_ok_mem _ _ _ hm

/-- The worked-example graph of the specification. -/
def sampleGraph : Graph :=
  { nodes := [("51", { type := 101, data := [.int 0] })],
    edges := [{ «from» := { node := "453", port := 2 },
                «to» := { node := "634", port := 1 },
                pressure := .finite 1, enthalpy := .finite 2,
                flow := .finite 3, temperature := .finite 4 }] }

/-- Witness: missing_attributes_abort at a node without ID, a node without
type, an edge without flow, and the successfully parsed worked example. -/
theorem missing_attributes_abort_witness :
    parse_node (.mk "node" [("type", "5")] []) = .error (.keyError "ID") ∧
    parse_node (.mk "node" [("ID", "7")] []) = .error (.keyError "type") ∧
    (∃ err, parse_edge (.mk "edge" [("start", "1,1"), ("end", "2,2"),
        ("pressure", "1.0"), ("enthalpy", "1.0"), ("temperature", "1.0")] []) =
        .error err ∧ isFormatError err = true) ∧
    (∃ n, parse_node (nodeEl "51" "101" [dataEl "0.0"]) = .ok n) ∧
    (∃ e, parse_edge (edgeEl "453,2" "634,1" "1.0" "2.0" "3.0" "4.0") = .ok e) :=
  ⟨(missing_attributes_abort.1 (.mk "node" [("type", "5")] []) rfl).1,
   (missing_attributes_abort.2.1 (.mk "node" [("ID", "7")] []) "7" rfl rfl).1,
   missing_attributes_abort.2.2.1 (.mk "edge" [("start", "1,1"), ("end", "2,2"),
     ("pressure", "1.0"), ("enthalpy", "1.0"), ("temperature", "1.0")] [])
     "flow" (by simp) rfl,
   missing_attributes_abort.2.2.2.1 sampleRoot
     (.mk "nodes" [] [nodeEl "51" "101" [dataEl "0.0"]]) sampleGraph
     (by rfl) rfl (nodeEl "51" "101" [dataEl "0.0"]) (List.Mem.head _),
   missing_attributes_abort.2.2.2.2 sampleRoot
     (.mk "edges" [] [edgeEl "453,2" "634,1" "1.0" "2.0" "3.0" "4.0"]) sampleGraph
     (by rfl) rfl (edgeEl "453,2" "634,1" "1.0" "2.0" "3.0" "4.0") (List.Mem.head _)⟩

/-- An edge whose four physical attributes are the integral string "2.0". -/
def intEdge : Element := edgeEl "1,1" "2,2" "2.0" "2.0" "2.0" "2.0"

/-- The record intEdge parses to: all four physical fields stay floats. -/
def intEdgeRec : EdgeRec :=
  EdgeRec.mk (EdgeEnd.mk "1" 1) (EdgeEnd.mk "2" 2)
    (.finite 2) (.finite 2) (.finite 2) (.finite 2)

/-- C6: the four physical attributes are parsed strictly as floats: a
successful edge parse stores exactly the parsed float value of each (so an
integral value stays a float, with no integer collapse, unlike node data
coercion, which sends "2.0" to the integer 2), and an unparseable value makes
edge parsing fail with a FormatError with no string fallback. -/
theorem parse_edge_strict_floats :
    (∀ el r, parse_edge el = .ok r →
       ∃ p hh f t,
         getAttr? el.attrib "pressure" = some p ∧
         pyFloatOfString? p = some r.pressure ∧
         getAttr? el.attrib "enthalpy" = some hh ∧
         pyFloatOfString? hh = some r.enthalpy ∧
         getAttr? el.attrib "flow" = some f ∧
         pyFloatOfString? f = some r.flow ∧
         getAttr? el.attrib "temperature" = some t ∧
         pyFloatOfString? t = some r.temperature) ∧
    (∀ el k v, k ∈ ["pressure", "enthalpy", "flow", "temperature"] →
       getAttr? el.attrib k = some v → pyFloatOfString? v = none →
       ∃ err, parse_edge el = .error err ∧ isFormatError err = true) ∧
    parse_edge intEdge = .ok intEdgeRec ∧
    intEdgeRec.pressure = .finite 2 ∧
    _parse_number "2.0" = .int 2 := by
  refine ⟨?_, ?_, by rfl, rfl, by rfl⟩
  · intro el r h
    obtain ⟨s, e, p, hh, f, t, _, _, h3, h4, h5, h6, _, _, hp, hhq, hfq, htq⟩ :=
      parse_edge_ok_elim el r h
    exact ⟨p, hh, f, t, h3, hp, h4, hhq, h5, hfq, h6, htq⟩
  · intro el k v hk hv hnone
    cases herr : parse_edge el with
    | ok r =>
      obtain ⟨s, e, p, hh, f, t, _, _, h3, h4, h5, h6, _, _, hp, hhq, hfq, htq⟩ :=
        parse_edge_ok_elim el r herr
      simp only [List.mem_cons, List.not_mem_nil, or_false] at hk
      rcases hk with rfl | rfl | rfl | rfl <;> simp_all
    | error err => exact ⟨err, rfl, parse_edge_error_format el err herr⟩

/-- Witness: parse_edge_strict_floats at intEdge and at an edge with
unparseable pressure "abc". -/
theorem parse_edge_strict_floats_witness :
    (∃ p hh f t,
       getAttr? intEdge.attrib "pressure" = some p ∧
       pyFloatOfString? p = some intEdgeRec.pressure ∧
       getAttr? intEdge.attrib "enthalpy" = some hh ∧
       pyFloatOfString? hh = some intEdgeRec.enthalpy ∧
       getAttr? intEdge.attrib "flow" = some f ∧
       pyFloatOfString? f = some intEdgeRec.flow ∧
       getAttr? intEdge.attrib "temperature" = some t ∧
       pyFloatOfString? t = some intEdgeRec.temperature) ∧
    (∃ err, parse_edge (edgeEl "1,1" "2,2" "abc" "1.0" "1.0" "1.0") =
       .error err ∧ isFormatError err = true) :=
  ⟨parse_edge_strict_floats.1 intEdge intEdgeRec (by rfl),
   parse_edge_strict_floats.2.1 (edgeEl "1,1" "2,2" "abc" "1.0" "1.0" "1.0")
     "pressure" "abc" (by simp) rfl rfl⟩

/-- An edge used twice in the duplicate-identifier example. -/
def dupEdge : Element := edgeEl "453,2" "634,1" "1.0" "2.0" "3.0" "4.0"

def dupNodesEl : Element :=
  .mk "nodes" [] [nodeEl "1" "1" [], nodeEl "2" "2" [], nodeEl "1" "3" []]

def dupEdgesEl : Element := .mk "edges" [] [dupEdge, dupEdge]

/-- A document with a duplicated node identifier and a duplicated edge. -/
def dupRoot : Element := .mk "root" [] [dupNodesEl, dupEdgesEl]

/-- The three node records of dupRoot in document order. -/
def dupNs : List NodeRec :=
  [{ id := "1", type := 1, data := [] }, { id := "2", type := 2, data := [] },
   { id := "1", type := 3, data := [] }]

def dupEdgeRec : EdgeRec :=
  EdgeRec.mk (EdgeEnd.mk "453" 2) (EdgeEnd.mk "634" 1)
    (.finite 1) (.finite 2) (.finite 3) (.finite 4)

/-- The graph dupRoot converts to: last-wins on identifier "1", duplicated
edges kept. -/
def dupGraph : Graph :=
  { nodes := [("1", { type := 3, data := [] }), ("2", { type := 2, data := [] })],
    edges := [dupEdgeRec, dupEdgeRec] }

/-- C8: the assembled graph keys nodes by identifier, the stored values hold
only type and data (the identifier is omitted), a later node element with the
same identifier silently overwrites an earlier one (lookup yields the last
record with that identifier in document order), and the edge list is exactly
the elementwise parse of the edge elements in document order with no
deduplication. -/
theorem graph_assembly_shape (root ne ee : Element) (g : Graph)
    (hne : findChild root "nodes" = some ne)
    (hee : findChild root "edges" = some ee)
    (hok : xml_to_json_graph root = .ok g) :
    (∀ ns, mapME parse_node (findallChildren ne "node") = .ok ns →
       ∀ k, lookupNode g.nodes k =
         match lastWithId k ns with
         | some n => some { type := n.type, data := n.data }
         | none => none) ∧
    List.Forall₂ (fun el e => parse_edge el = .ok e)
      (findallChildren ee "edge") g.edges := by
  obtain ⟨hb, hm⟩ := xml_to_json_graph_ok_elim root ne ee g hne hee hok
  refine ⟨?_, mapME_forall₂ _ _ _ hm⟩
  intro ns hns k
  have hb' := buildNodes_of_mapME (findallChildren ne "node") ns [] hns
  rw [hb'] at hb
  have hg : ns.foldl
      (fun m n => insertNode m n.id { type := n.type, data := n.data }) [] =
      g.nodes := Except.ok.inj hb
  rw [← hg, lookup_foldNodes]
  cases lastWithId k ns <;> simp [lookupNode]

/-- Witness: graph_assembly_shape at dupRoot: identifier "1" resolves to the
last record (type 3), and the duplicated edge is kept twice in order. -/
theorem graph_assembly_shape_witness :
    lookupNode dupGraph.nodes "1" = some { type := 3, data := [] } ∧
    List.Forall₂ (fun el e => parse_edge el = .ok e)
      (findallChildren dupEdgesEl "edge") dupGraph.edges :=
  ⟨(graph_assembly_shape dupRoot dupNodesEl dupEdgesEl dupGraph rfl rfl
      (by rfl)).1 dupNs (by rfl) "1",
   (graph_assembly_shape dupRoot dupNodesEl dupEdgesEl dupGraph rfl rfl
      (by rfl)).2⟩

/-- C9: the conversion is a pure function of the parsed document: equal
inputs yield equal results and equal graph values, so repeated runs on the
same input produce identical graphs, and the document writer (a function of
the graph value) then emits byte-identical output. -/
theorem conversion_deterministic (r₁ r₂ : Element) (h : r₁ = r₂) :
    xml_to_json_graph r₁ = xml_to_json_graph r₂ ∧
    (∀ g₁ g₂, xml_to_json_graph r₁ = .ok g₁ → xml_to_json_graph r₂ = .ok g₂ →
       g₁ = g₂) := by
  subst h
  exact ⟨rfl, fun g₁ g₂ h₁ h₂ => Except.ok.inj (h₁.symm.trans h₂)⟩

/-- Witness: determinism at the worked example. -/
theorem conversion_deterministic_witness :
    xml_to_json_graph sampleRoot = xml_to_json_graph sampleRoot ∧
    sampleGraph = sampleGraph :=
  ⟨(conversion_deterministic sampleRoot sampleRoot rfl).1,
   (conversion_deterministic sampleRoot sampleRoot rfl).2 sampleGraph sampleGraph
     (by rfl) (by rfl)⟩

/-- A document whose nodes have data-sequence lengths 1 and 3. -/
def excelRoot : Element :=
  rootEl [nodeEl "51" "101" [dataEl "0.0"],
          nodeEl "171" "116" [dataEl "11.21", dataEl "87.84", dataEl "N/A"]] []

/-- The graph excelRoot converts to. -/
def excelGraph : Graph :=
  { nodes := [("51", NodeVal.mk 101 [.int 0]),
              ("171", NodeVal.mk 116
                [.float (.finite (mkRat 1121 100)),
                 .float (.finite (mkRat 8784 100)), .str "N/A"])],
    edges := [] }

/-- C1: the table builder applied to the flattened list-shaped records does
produce one row per node with graph-global data_1..data_M columns and
trailing nulls; but the tabular entry point as written passes the
identifier-keyed mapping to the table builder without flattening, so on any
graph with at least one node it raises AttributeError (iterating the mapping
yields key strings, which have no get method) instead of building the table. -/
theorem tabular_export_crashes_on_mapping :
    xml_to_excel_nodes excelRoot =
      .error (.attributeError "str object has no attribute get") ∧
    xml_to_json_graph excelRoot = .ok excelGraph ∧
    build_nodes_dataframe (flattenNodes excelGraph.nodes) =
      [{ id := "51", type := 101, dataCols := [some (.int 0), none, none] },
       { id := "171", type := 116,
         dataCols := [some (.float (.finite (mkRat 1121 100))),
                      some (.float (.finite (mkRat 8784 100))),
                      some (.str "N/A")] }] :=
  ⟨by rfl, by rfl, by rfl⟩
